import Mathlib

/-!
Verification development for the XII-ProjectDeck address-grouping engine.

The Python sources embedded here are:
* `src/group_by_address.py`  — namespace `GroupByAddress`
* `src/extract_dental_data.py` — namespace `ExtractDentalData`

Python strings are modelled as `List Char` at the scanning level and as
`String` at function boundaries.  The regular-expression substitutions used
by the sources are embedded as specialised scanners with the exact leftmost,
ordered-alternation, greedy semantics of Python `re.sub` for these patterns.
-/

namespace ProjectDeck

/-- ASCII whitespace recognised by Python's `str.strip` and `\s` (we model the
ASCII fragment: space, tab, newline, carriage return, vertical tab, form feed). -/
def isSpacePy (c : Char) : Bool :=
  c = ' ' || c = '\t' || c = '\n' || c = '\r' || c = '\x0b' || c = '\x0c'

/-- Python regex word character `\w` (ASCII fragment): alphanumeric or underscore. -/
def isWordChar (c : Char) : Bool :=
  c.isAlpha || c.isDigit || c = '_'

/-- ASCII `[a-z0-9]` under `re.IGNORECASE`: letters of either case, or digits. -/
def isAsciiAlnumCI (c : Char) : Bool :=
  ('a' ≤ c && c ≤ 'z') || ('A' ≤ c && c ≤ 'Z') || ('0' ≤ c && c ≤ '9')

/-- Python `str.lower` (ASCII fragment). -/
def lowerPy (s : List Char) : List Char := s.map Char.toLower

/-- Python `str.strip` with no argument: remove leading and trailing whitespace. -/
def stripPy (s : List Char) : List Char :=
  ((s.dropWhile isSpacePy).reverse.dropWhile isSpacePy).reverse

/-- If `pat` is literally a prefix of `s`, return the remainder of `s`. -/
def restAfter : List Char → List Char → Option (List Char)
  | [], s => some s
  | _ :: _, [] => none
  | p :: ps, c :: cs => if c = p then restAfter ps cs else none

/-- Case-insensitive variant of `restAfter` (pattern given in lowercase). -/
def restAfterCI : List Char → List Char → Option (List Char)
  | [], s => some s
  | _ :: _, [] => none
  | p :: ps, c :: cs => if c.toLower = p then restAfterCI ps cs else none

/-- Boundary test: `\b` holds after an alternative ending in a word character exactly when the
next character is absent or not a word character. -/
def endBoundary : List Char → Bool
  | [] => true
  | c :: _ => !isWordChar c

/-- Try the alternatives of `\b(a₁|a₂|…)\b` in order at the current position
(the leading `\b` is checked by the caller); each alternative consists of word
characters, so the trailing `\b` is `endBoundary`. -/
def tryWordAlts : List (List Char) → List Char → Option (List Char)
  | [], _ => none
  | a :: as, s =>
    match restAfter a s with
    | some rest => if endBoundary rest then some rest else tryWordAlts as s
    | none => tryWordAlts as s

/-- Scanner for `re.sub(r'\b(a₁|a₂)\b\.?', repl, s)` (street-type rules of
`normalize_address`).  `prevW` says whether the previous character of the
original string is a word character (so `\b` holds before a word character
exactly when `prevW = false`).  `fuel` bounds the number of steps; each step
consumes at least one character, so `fuel = s.length` is always enough. -/
def scanWordSub (alts : List (List Char)) (repl : List Char) :
    Nat → Bool → List Char → List Char
  | 0, _, s => s
  | _ + 1, _, [] => []
  | fuel + 1, prevW, c :: cs =>
    if prevW then
      c :: scanWordSub alts repl fuel (isWordChar c) cs
    else
      match tryWordAlts alts (c :: cs) with
      | some rest =>
        match rest with
        | '.' :: rest2 => repl ++ scanWordSub alts repl fuel false rest2
        | _ => repl ++ scanWordSub alts repl fuel true rest
      | none => c :: scanWordSub alts repl fuel (isWordChar c) cs

/-- Try the alternatives of `\b(a₁|…)` in order (no trailing `\b`). -/
def tryBareAlts : List (List Char) → List Char → Option (List Char)
  | [], _ => none
  | a :: as, s =>
    match restAfter a s with
    | some rest => some rest
    | none => tryBareAlts as s

/-- Consume the greedy tail `\s*\.?\s*` of the suite/unit marker patterns. -/
def eatSpacesDot (rest : List Char) : List Char :=
  let r1 := rest.dropWhile isSpacePy
  let r2 := match r1 with
    | '.' :: t => t
    | _ => r1
  r2.dropWhile isSpacePy

/-- Scanner for `re.sub(r'\b(a₁|a₂|…)\s*\.?\s*', repl, s)` (suite/unit marker
rules of `normalize_address`).  There is no trailing `\b`; after a match the
previous-character flag is a word character only when nothing beyond the
alternative itself was consumed. -/
def scanMarkerSub (alts : List (List Char)) (repl : List Char) :
    Nat → Bool → List Char → List Char
  | 0, _, s => s
  | _ + 1, _, [] => []
  | fuel + 1, prevW, c :: cs =>
    if prevW then
      c :: scanMarkerSub alts repl fuel (isWordChar c) cs
    else
      match tryBareAlts alts (c :: cs) with
      | some rest =>
        let r3 := eatSpacesDot rest
        repl ++ scanMarkerSub alts repl fuel (r3.length == rest.length) r3
      | none => c :: scanMarkerSub alts repl fuel (isWordChar c) cs

/-- Scanner for `re.sub(r'[,\s]+', ' ', s)`: collapse each maximal run of
commas and whitespace into a single space. -/
def collapseCommaWs : List Char → List Char
  | [] => []
  | [c] => if isSpacePy c || c = ',' then [' '] else [c]
  | c1 :: c2 :: cs =>
    if isSpacePy c1 || c1 = ',' then
      if isSpacePy c2 || c2 = ',' then collapseCommaWs (c2 :: cs)
      else ' ' :: collapseCommaWs (c2 :: cs)
    else c1 :: collapseCommaWs (c2 :: cs)

/-- Scanner for `re.sub(r'\s+', ' ', s)`: collapse each maximal whitespace run
into a single space. -/
def collapseWs : List Char → List Char
  | [] => []
  | [c] => if isSpacePy c then [' '] else [c]
  | c1 :: c2 :: cs =>
    if isSpacePy c1 then
      if isSpacePy c2 then collapseWs (c2 :: cs)
      else ' ' :: collapseWs (c2 :: cs)
    else c1 :: collapseWs (c2 :: cs)

/-- The alternatives `(ste|suite|unit|apt|apartment)` of the base-address
pattern, in source order, lowercase. -/
def baseAlts : List (List Char) :=
  ["ste".data, "suite".data, "unit".data, "apt".data, "apartment".data]

/-- Tail test for `[a-z0-9]+.*$` (IGNORECASE, no DOTALL, no MULTILINE): succeeds from `s`
iff `s` starts with an ASCII alphanumeric and everything after the greedy
non-newline run is empty or a single final newline; returns what the match
leaves behind (`[]` or the final newline). -/
def dollarTail (s : List Char) : Option (List Char) :=
  match s with
  | [] => none
  | c :: _ =>
    if isAsciiAlnumCI c then
      match s.dropWhile (fun d => !(d == '\n')) with
      | [] => some []
      | ['\n'] => some ['\n']
      | _ => none
    else none

/-- One attempt of `\s*(ste|suite|unit|apt|apartment)\s*\.?\s*[a-z0-9]+.*$`
(IGNORECASE) at the current position; on success returns the characters the
match leaves behind. -/
def tryBaseMatch (s : List Char) : Option (List Char) :=
  let w := s.dropWhile isSpacePy
  let rec tryAlts : List (List Char) → Option (List Char)
    | [] => none
    | a :: as =>
      match restAfterCI a w with
      | some rest => some rest
      | none => tryAlts as
  match tryAlts baseAlts with
  | none => none
  | some rest => dollarTail (eatSpacesDot rest)

/-- Scanner for `re.sub(r'\s*(ste|suite|unit|apt|apartment)\s*\.?\s*[a-z0-9]+.*$', '', s,
flags=re.IGNORECASE)`.  Because any match extends to the end of the string
(or to a single final newline, on which no further match can begin), at most
one substitution ever happens. -/
def baseSubScan : List Char → List Char
  | [] => []
  | c :: cs =>
    match tryBaseMatch (c :: cs) with
    | some leftover => leftover
    | none => c :: baseSubScan cs

end ProjectDeck

namespace GroupByAddress

open ProjectDeck

/-- Embedding of `normalize_address` from `src/group_by_address.py` (lines 31–65):
lowercase and strip, expand street-type abbreviations with word-boundary
patterns consuming an optional trailing dot, rewrite suite/unit markers, then
collapse runs of commas/whitespace and strip. -/
def normalize_address (address : String) : String :=
  if address = "" then "" else
  let n := stripPy (lowerPy address.data)
  let n := scanWordSub ["st".data, "street".data] "street".data n.length false n
  let n := scanWordSub ["ave".data, "avenue".data] "avenue".data n.length false n
  let n := scanWordSub ["rd".data, "road".data] "road".data n.length false n
  let n := scanWordSub ["blvd".data, "boulevard".data] "boulevard".data n.length false n
  let n := scanWordSub ["dr".data, "drive".data] "drive".data n.length false n
  let n := scanWordSub ["ct".data, "court".data] "court".data n.length false n
  let n := scanWordSub ["ln".data, "lane".data] "lane".data n.length false n
  let n := scanMarkerSub ["ste".data, "suite".data] "ste ".data n.length false n
  let n := scanMarkerSub ["unit".data, "apt".data, "apartment".data] "unit ".data n.length false n
  let n := collapseCommaWs n
  String.mk (stripPy n)

/-- Embedding of `get_base_address` from `src/group_by_address.py` (lines 68–82): strip
everything from a suite/unit marker (case-insensitively, no word boundary)
to the end, then strip and lowercase. -/
def get_base_address (address : String) : String :=
  if address = "" then "" else
  let base := stripPy (baseSubScan address.data)
  if base = [] then "" else String.mk (lowerPy base)

end GroupByAddress

namespace ExtractDentalData

open ProjectDeck

/-- Embedding of `normalize_address` from `src/extract_dental_data.py` (lines 8–12):
empty or `"null"` input yields `""`; otherwise strip, lowercase and collapse
whitespace runs to single spaces. -/
def normalize_address (address : String) : String :=
  if address = "" || address = "null" then "" else
  String.mk (collapseWs (lowerPy (stripPy address.data)))

/-- Embedding of `get_base_address` from `src/extract_dental_data.py` (lines 14–19):
empty or `"null"` input yields `""`; otherwise remove the suite/unit suffix,
and if anything is left, strip and lowercase it. -/
def get_base_address (address : String) : String :=
  if address = "" || address = "null" then "" else
  let base := baseSubScan address.data
  if base = [] then "" else String.mk (lowerPy (stripPy base))

end ExtractDentalData

namespace ProjectDeck

/-- A provider record from a source feed.  Fields are optional strings;
`none` models an absent key or a JSON `null` value (Python `None`).  The
literal string `"null"` — the upstream sentinel — is a *present* value
`some "null"`.  `distance_miles` is an opaque numeric passed through
unchanged by the grouping code. -/
structure Provider where
  name : Option String := none
  specialty : Option String := none
  address : Option String := none
  city : Option String := none
  state : Option String := none
  zip : Option String := none
  county : Option String := none
  phone : Option String := none
  website : Option String := none
  distance_miles : Option Int := none
  original_category : Option String := none
deriving DecidableEq, Inhabited

/-- Python `x or ''` for an optional string: `None` and `''` give `''`. -/
def orEmpty (o : Option String) : String := o.getD ""

/-- Python truthiness of an optional string: present and non-empty. -/
def truthyS : Option String → Bool
  | none => false
  | some s => !(s == "")

/-- Python `s.lower().strip()`. -/
def lowerStripS (s : String) : String := String.mk (stripPy (lowerPy s.data))

/-- Python `s.strip()`. -/
def stripS (s : String) : String := String.mk (stripPy s.data)

/-- Python `', '.join(parts)`. -/
def joinCommaSpace : List String → String
  | [] => ""
  | [s] => s
  | s :: t :: rest => s ++ ", " ++ joinCommaSpace (t :: rest)

/-- Code-point lexicographic `≤` on strings, as used by Python `sorted`. -/
def pyLeChars : List Char → List Char → Bool
  | [], _ => true
  | _ :: _, [] => false
  | a :: as, b :: bs =>
    if a.val < b.val then true
    else if b.val < a.val then false
    else pyLeChars as bs

def pyStrLe (s t : String) : Bool := pyLeChars s.data t.data

/-- Insert `a` after every element `b` of `l` with `le b a`; building block
of a stable sort. -/
def insLe (le : α → α → Bool) (a : α) : List α → List α
  | [] => [a]
  | b :: bs => if le b a then b :: insLe le a bs else a :: b :: bs

/-- Stable insertion sort.  Python's `sorted`/`list.sort` are stable merge
sorts; for a total preorder `le` the stable sorted permutation is unique, so
this computes exactly what the Python calls produce. -/
def sortLe (le : α → α → Bool) (l : List α) : List α :=
  l.foldl (fun acc x => insLe le x acc) []

/-- Append `p` to the bucket of key `k`, or open a new bucket at the end:
the behaviour of `defaultdict(list)` indexed by `k` (Python dicts preserve
insertion order). -/
def addToGroups : List (String × List Provider) → String → Provider →
    List (String × List Provider)
  | [], k, p => [(k, [p])]
  | (k', ps) :: rest, k, p =>
    if k' = k then (k', ps ++ [p]) :: rest
    else (k', ps) :: addToGroups rest k p

end ProjectDeck

namespace GroupByAddress

open ProjectDeck

/-- Embedding of `create_location_key` from `src/group_by_address.py` (lines 85–105). -/
def create_location_key (provider : Provider) (use_base_address : Bool) : String :=
  let address := if use_base_address then get_base_address (orEmpty provider.address)
                 else normalize_address (orEmpty provider.address)
  let city := lowerStripS (orEmpty provider.city)
  let state := lowerStripS (orEmpty provider.state)
  let zip := stripS (orEmpty provider.zip)
  address ++ "|" ++ city ++ "|" ++ state ++ "|" ++ zip

/-- The truthy parts `[address, city, state, zip]` collected by
`get_full_address` (lines 112–120). -/
def fullAddressParts (provider : Provider) : List String :=
  (if truthyS provider.address then [orEmpty provider.address] else []) ++
  (if truthyS provider.city then [orEmpty provider.city] else []) ++
  (if truthyS provider.state then [orEmpty provider.state] else []) ++
  (if truthyS provider.zip then [orEmpty provider.zip] else [])

/-- Embedding of `get_full_address` from `src/group_by_address.py` (lines 108–122). -/
def get_full_address (provider : Provider) : String :=
  joinCommaSpace (fullAddressParts provider)

/-- The parsed input JSON of `group_providers_by_address`: a `meta` blob
(opaque to the grouping logic, passed through) and the `grouped_providers`
mapping from category label to provider list, in file order. -/
structure InputData where
  meta : String := ""
  grouped_providers : List (String × List Provider) := []
deriving DecidableEq, Inhabited

structure Location where
  address : String
  city : String
  state : String
  zip : String
  county : String
  full_address : String
  phone : String
  website : Option String
  distance_miles : Option Int
deriving DecidableEq, Inhabited

structure LocationEntry where
  location : Location
  provider_count : Nat
  providers : List Provider
deriving DecidableEq, Inhabited

structure GroupOutput where
  meta : String
  total_locations : Nat
  total_providers : Nat
  grouping_method : String
  locations : List LocationEntry
deriving DecidableEq, Inhabited

/-- Lines 141–147: flatten all categories, stamping each copied record with
its `original_category`. -/
def allProviders (data : InputData) : List Provider :=
  (data.grouped_providers.map
    (fun cp => cp.2.map (fun p => { p with original_category := some cp.1 }))).flatten

/-- Lines 150–153: one pass over the providers, bucketing by location key.
No record is skipped. -/
def buildGroups (ps : List Provider) (use_base_address : Bool) :
    List (String × List Provider) :=
  ps.foldl (fun gs p => addToGroups gs (create_location_key p use_base_address) p) []

/-- Lines 158–176: build one location entry from a bucket; all location
fields come from the bucket's first provider (`.get(k, '')` modelled as
`orEmpty`, `.get('website')`/`.get('distance_miles')` pass the optional
through). -/
def mkLocationEntry (kps : String × List Provider) : LocationEntry :=
  let first := kps.2.headD default
  { location :=
      { address := orEmpty first.address
        city := orEmpty first.city
        state := orEmpty first.state
        zip := orEmpty first.zip
        county := orEmpty first.county
        full_address := get_full_address first
        phone := orEmpty first.phone
        website := first.website
        distance_miles := first.distance_miles }
    provider_count := kps.2.length
    providers := kps.2 }

/-- The pure core of `group_providers_by_address` from
`src/group_by_address.py` (lines 125–201), after the input JSON has been
parsed.  `sorted(location_groups.items())` compares `(key, bucket)` pairs,
which for distinct keys is just the code-point order of the keys; the final
`.sort(key=...)` is a stable sort by `full_address`. -/
def group_providers_by_address (data : InputData) (use_base_address : Bool) :
    GroupOutput :=
  let all_providers := allProviders data
  let location_groups := buildGroups all_providers use_base_address
  let sortedGroups := sortLe (fun a b => pyStrLe a.1 b.1) location_groups
  let entries := sortedGroups.map mkLocationEntry
  let grouped_by_location :=
    sortLe (fun a b => pyStrLe a.location.full_address b.location.full_address) entries
  { meta := data.meta
    total_locations := grouped_by_location.length
    total_providers := all_providers.length
    grouping_method := if use_base_address then "by_base_address" else "by_address_location"
    locations := grouped_by_location }

end GroupByAddress


namespace ExtractDentalData

open ProjectDeck

/-- Embedding of `create_location_key` from `src/extract_dental_data.py` (lines 21–34);
same shape as the one in `group_by_address.py` but built on this module's
`normalize_address`/`get_base_address`. -/
def create_location_key (provider : Provider) (use_base_address : Bool) : String :=
  let address := if use_base_address then get_base_address (orEmpty provider.address)
                 else normalize_address (orEmpty provider.address)
  let city := lowerStripS (orEmpty provider.city)
  let state := lowerStripS (orEmpty provider.state)
  let zip := stripS (orEmpty provider.zip)
  address ++ "|" ++ city ++ "|" ++ state ++ "|" ++ zip

/-- A field contributes to the dental `get_full_address` when it is truthy
and not the `"null"` sentinel (lines 38–46). -/
def partOk (o : Option String) : Bool :=
  truthyS o && !(orEmpty o == "null")

def fullAddressParts (provider : Provider) : List String :=
  (if partOk provider.address then [orEmpty provider.address] else []) ++
  (if partOk provider.city then [orEmpty provider.city] else []) ++
  (if partOk provider.state then [orEmpty provider.state] else []) ++
  (if partOk provider.zip then [orEmpty provider.zip] else [])

/-- Embedding of `get_full_address` from `src/extract_dental_data.py` (lines 36–48):
returns `None` when no part survives. -/
def get_full_address (provider : Provider) : Option String :=
  match fullAddressParts provider with
  | [] => none
  | parts => some (joinCommaSpace parts)

/-- The skip test of the module-level loop (lines 58–59): a record is kept
only when its address is present, non-empty and not the `"null"` sentinel. -/
def usableAddress (p : Provider) : Bool :=
  match p.address with
  | none => false
  | some s => !(s == "") && !(s == "null")

/-- Lines 55–62: group the usable records by base-address location key. -/
def groupedD (providers : List Provider) : List (String × List Provider) :=
  providers.foldl
    (fun gs p => if usableAddress p then addToGroups gs (create_location_key p true) p else gs)
    []

/-- Python `x or None` followed by the `== 'null'` clean-up: empty, absent
and sentinel all become `None`. -/
def cleanOpt (o : Option String) : Option String :=
  match o with
  | none => none
  | some s => if s == "" || s == "null" then none else some s

/-- Python `x or default` for strings. -/
def orDefaultS (o : Option String) (d : String) : String :=
  match o with
  | none => d
  | some s => if s == "" then d else s

structure FormattedProvider where
  name : String
  specialty : String
  phone : Option String
  website : Option String
deriving DecidableEq, Inhabited

/-- Lines 94–106: the provider-facing projection used by the dental feed. -/
def fmtProvider (p : Provider) : FormattedProvider :=
  { name := orDefaultS p.name "Dental Provider"
    specialty := orDefaultS p.specialty "Dental"
    phone := cleanOpt p.phone
    website := cleanOpt p.website }

structure DentalLocation where
  address : String
  city : String
  state : String
  zip : String
  full_address : String
  phone : Option String
  county : Option String
deriving DecidableEq, Inhabited

structure DentalEntry where
  location : DentalLocation
  provider_count : Nat
  providers : List FormattedProvider
deriving DecidableEq, Inhabited

/-- Lines 66–112: turn one bucket into a location entry, skipping empty
buckets and buckets whose first provider yields no full address. -/
def mkDentalEntry (kps : String × List Provider) : Option DentalEntry :=
  match kps.2 with
  | [] => none
  | first :: _ =>
    match get_full_address first with
    | none => none
    | some fa =>
      some
        { location :=
            { address := orEmpty first.address
              city := orEmpty first.city
              state := orEmpty first.state
              zip := orEmpty first.zip
              full_address := fa
              phone := cleanOpt first.phone
              county := none }
          provider_count := (kps.2.map fmtProvider).length
          providers := kps.2.map fmtProvider }

/-- The `locations` array assembled by the module-level code of
`src/extract_dental_data.py` (lines 64–112). -/
def dentalLocations (providers : List Provider) : List DentalEntry :=
  (groupedD providers).filterMap mkDentalEntry

end ExtractDentalData

namespace GroupByAddress

open ProjectDeck

/-- Outcome of `json.load(open(input_file))` in `main` (lines 220–249):
either parsed data or one of the exception classes the handler
distinguishes. -/
inductive LoadOutcome where
  | ok (data : InputData)
  | fileNotFound
  | jsonError
  | otherFailure
deriving DecidableEq, Inhabited

/-- Line 218: the truthy values of the third positional argument. -/
def truthyFlag (s : String) : Bool :=
  s.toLower = "true" || s.toLower = "1" || s.toLower = "yes" || s.toLower = "base"

/-- Lines 208–218: defaults and positional-argument handling.  `argv` is the
full `sys.argv` including the program name. -/
def mainArgs (argv : List String) : String × String × Bool :=
  let input_file := if argv.length > 1 then argv.getD 1 "" else
    "ucship_anthem_providers_grouped_2026-01-10.json"
  let output_file := if argv.length > 2 then argv.getD 2 "" else
    "ucship_anthem_providers_by_address.json"
  let use_base_address := if argv.length > 3 then truthyFlag (argv.getD 3 "") else false
  (input_file, output_file, use_base_address)

/-- Exit code and diagnostic of `main` (lines 220–249).  `load` abstracts the
filesystem/JSON layer.  On success the summary print divides
`total_providers` by `total_locations`; with zero locations this raises
`ZeroDivisionError`, which the generic `except Exception` handler turns into
exit code 1 — so a run succeeds exactly when loading succeeded and at least
one location was produced. -/
def mainExit (argv : List String) (load : String → LoadOutcome) : Nat × Option String :=
  let args := mainArgs argv
  let input_file := args.1
  let use_base_address := args.2.2
  match load input_file with
  | .fileNotFound => (1, some ("Error: File " ++ input_file ++ " not found."))
  | .jsonError => (1, some ("Error: Invalid JSON in " ++ input_file))
  | .otherFailure => (1, some "Error")
  | .ok data =>
    let result := group_providers_by_address data use_base_address
    if result.total_locations = 0 then (1, some "Error: division by zero")
    else (0, none)

end GroupByAddress

namespace GroupByAddress

open ProjectDeck

/-- The records of `ps` whose location key is `k` (in input order): the
bucket `group_providers_by_address` accumulates for `k`. -/
def bucketOf (ps : List Provider) (flag : Bool) (k : String) : List Provider :=
  ps.filter (fun p => create_location_key p flag == k)

/-- The distinct location keys of `ps` in first-occurrence order: the key
insertion order of the `defaultdict`. -/
def firstKeys (ps : List Provider) (flag : Bool) : List String :=
  ps.foldl
    (fun acc p =>
      if create_location_key p flag ∈ acc then acc else acc ++ [create_location_key p flag])
    []

/-- The normalized component tuple from which `create_location_key` builds
its key: address component (normalized or base), lowercased-trimmed city and
state, trimmed zip. -/
def keyComponents (p : Provider) (use_base_address : Bool) :
    String × String × String × String :=
  (if use_base_address then get_base_address (orEmpty p.address)
   else normalize_address (orEmpty p.address),
   lowerStripS (orEmpty p.city),
   lowerStripS (orEmpty p.state),
   stripS (orEmpty p.zip))

/-- The separator of `create_location_key` does not occur in the string. -/
abbrev noPipe (s : String) : Prop := '|' ∉ s.data

end GroupByAddress

namespace ClaimData

open ProjectDeck GroupByAddress

/-- C1: an input consisting solely of a record whose address is the literal
sentinel string `"null"`. -/
def c1data : InputData :=
  { meta := "m", grouped_providers := [("dental", [{ name := some "Dr. A", address := some "null" }])] }

/-- C2: an input with one `"null"`-address record and one usable record. -/
def c2data : InputData :=
  { grouped_providers :=
      [("cat", [{ name := some "Dr. B", address := some "null" },
                { name := some "Dr. C", address := some "1 Elm St", city := some "Goleta" }])] }

/-- C3: an input whose only record has no address, city, state or zip. -/
def c3data : InputData :=
  { grouped_providers := [("cat", [{ name := some "Dr. D" }])] }

def c6p1 : Provider := { address := some "a|b", city := some "c" }

def c6p2 : Provider := { address := some "a", city := some "b|c" }

def c6q1 : Provider := { address := some "1 Elm St", city := some "Goleta", zip := some "93117" }

def c6q2 : Provider := { address := some "2 Oak Ave", city := some "Goleta", zip := some "93117" }

/-- C8 witness: two records at the same location and one elsewhere. -/
def c8data : InputData :=
  { grouped_providers :=
      [("cat", [{ name := some "Dr. E", address := some "1 Elm St", city := some "Goleta" },
                { name := some "Dr. F", address := some "9 Oak Ave", city := some "Goleta" },
                { name := some "Dr. G", address := some "1 Elm St", city := some "Goleta",
                  phone := some "805", distance_miles := some 2 }])] }

def c8key : String := create_location_key
  { name := some "Dr. E", address := some "1 Elm St", city := some "Goleta",
    original_category := some "cat" } false

/-- C9 witness: a loadable input with one location. -/
def c9data : InputData :=
  { grouped_providers := [("cat", [{ name := some "Dr. H", address := some "1 Elm St" }])] }

def c10p1 : Provider := { address := some "10 Easter Blvd", city := some "Goleta", zip := some "93117" }

def c10p2 : Provider := { address := some "10 Eastern Ave", city := some "Goleta", zip := some "93117" }

end ClaimData

namespace ProjectDeck

theorem insLe_perm (le : α → α → Bool) (a : α) (l : List α) :
    (insLe le a l).Perm (a :: l) := by
  induction l with
  | nil => exact List.Perm.refl _
  | cons b bs ih =>
    simp only [insLe]
    split
    · exact (ih.cons b).trans (List.Perm.swap a b bs)
    · exact List.Perm.refl _

theorem sortLe_go_perm (le : α → α → Bool) :
    ∀ (l acc : List α), (List.foldl (fun acc x => insLe le x acc) acc l).Perm (acc ++ l)
  | [], acc => by simp
  | x :: xs, acc => by
    simp only [List.foldl_cons]
    exact (sortLe_go_perm le xs (insLe le x acc)).trans
      (((insLe_perm le x acc).append_right xs).trans List.perm_middle.symm)

theorem sortLe_perm (le : α → α → Bool) (l : List α) : (sortLe le l).Perm l := by
  simpa using sortLe_go_perm le l []

theorem addToGroups_sum (gs : List (String × List Provider)) (k : String) (p : Provider) :
    ((addToGroups gs k p).map (fun kb => kb.2.length)).sum
      = ((gs.map (fun kb => kb.2.length)).sum) + 1 := by
  induction gs with
  | nil => simp [addToGroups]
  | cons kb rest ih =>
    obtain ⟨k', ps⟩ := kb
    simp only [addToGroups]
    split
    · simp [List.length_append]
      omega
    · simp only [List.map_cons, List.sum_cons, ih]
      omega

/-- Each processed record lands in exactly one bucket: an invariant of the
bucketing fold. -/
theorem foldl_groups_sum (key : Provider → String) :
    ∀ (ps : List Provider) (gs : List (String × List Provider)),
      (((ps.foldl (fun gs p => addToGroups gs (key p) p) gs)).map
          (fun kb => kb.2.length)).sum
        = ((gs.map (fun kb => kb.2.length)).sum) + ps.length
  | [], gs => by simp
  | p :: ps, gs => by
    simp only [List.foldl_cons, foldl_groups_sum key ps, addToGroups_sum, List.length_cons]
    omega

end ProjectDeck

namespace GroupByAddress

open ProjectDeck

theorem buildGroups_sum (ps : List Provider) (flag : Bool) :
    ((buildGroups ps flag).map (fun kb => kb.2.length)).sum = ps.length := by
  simpa [buildGroups] using
    foldl_groups_sum (fun p => create_location_key p flag) ps []

theorem buildGroups_snoc (ps : List Provider) (p : Provider) (flag : Bool) :
    buildGroups (ps ++ [p]) flag
      = addToGroups (buildGroups ps flag) (create_location_key p flag) p := by
  simp [buildGroups, List.foldl_append]

theorem firstKeys_snoc (ps : List Provider) (p : Provider) (flag : Bool) :
    firstKeys (ps ++ [p]) flag
      = if create_location_key p flag ∈ firstKeys ps flag then firstKeys ps flag
        else firstKeys ps flag ++ [create_location_key p flag] := by
  simp [firstKeys, List.foldl_append]

theorem bucketOf_snoc (ps : List Provider) (p : Provider) (flag : Bool) (k : String) :
    bucketOf (ps ++ [p]) flag k
      = bucketOf ps flag k ++ (if create_location_key p flag = k then [p] else []) := by
  by_cases h : create_location_key p flag = k <;>
    simp [bucketOf, List.filter_append, List.filter_cons, h]

theorem mem_firstKeys (flag : Bool) (ps : List Provider) :
    ∀ k : String, k ∈ firstKeys ps flag ↔ ∃ p ∈ ps, create_location_key p flag = k := by
  induction ps using List.reverseRecOn with
  | nil => simp [firstKeys]
  | append_singleton l a ih =>
    intro k
    rw [firstKeys_snoc]
    by_cases h : create_location_key a flag ∈ firstKeys l flag
    · rw [if_pos h, ih]
      simp only [List.mem_append, List.mem_singleton]
      constructor
      · rintro ⟨p, hp, rfl⟩
        exact ⟨p, Or.inl hp, rfl⟩
      · rintro ⟨p, hp | hpa, hk⟩
        · exact ⟨p, hp, hk⟩
        · subst hpa
          obtain ⟨p', hp', hpk⟩ := (ih _).mp h
          exact ⟨p', hp', hpk.trans hk⟩
    · rw [if_neg h]
      simp only [List.mem_append, List.mem_singleton, ih]
      constructor
      · rintro (⟨p, hp, rfl⟩ | rfl)
        · exact ⟨p, Or.inl hp, rfl⟩
        · exact ⟨a, Or.inr rfl, rfl⟩
      · rintro ⟨p, hp | rfl, hk⟩
        · exact Or.inl ⟨p, hp, hk⟩
        · exact Or.inr hk.symm

theorem firstKeys_nodup (flag : Bool) (ps : List Provider) : (firstKeys ps flag).Nodup := by
  induction ps using List.reverseRecOn with
  | nil => simp [firstKeys]
  | append_singleton l a ih =>
    rw [firstKeys_snoc]
    by_cases h : create_location_key a flag ∈ firstKeys l flag
    · rwa [if_pos h]
    · rw [if_neg h]
      simp [List.nodup_append, ih, h]

end GroupByAddress

namespace ProjectDeck

theorem addToGroups_map_mem (B : String → List Provider) (q : String) (p0 : Provider) :
    ∀ kl : List String, kl.Nodup → q ∈ kl →
      addToGroups (kl.map (fun k => (k, B k))) q p0
        = kl.map (fun k => (k, B k ++ if q = k then [p0] else []))
  | [], _, hq => absurd hq (List.not_mem_nil q)
  | k0 :: rest, hnd, hq => by
    simp only [List.map_cons, addToGroups]
    split
    · rename_i h
      subst h
      have hnr : k0 ∉ rest := (List.nodup_cons.mp hnd).1
      rw [if_pos rfl]
      congr 1
      refine (List.map_congr_left fun k hk => ?_).symm
      have : k0 ≠ k := fun he => hnr (he ▸ hk)
      rw [if_neg this, List.append_nil]
    · rename_i h
      have hq' : q ∈ rest := by
        rcases List.mem_cons.mp hq with h' | h'
        · exact absurd h'.symm h
        · exact h'
      rw [addToGroups_map_mem B q p0 rest (List.nodup_cons.mp hnd).2 hq']
      have : q ≠ k0 := fun he => h he.symm
      rw [if_neg this, List.append_nil]

theorem addToGroups_map_not_mem (B : String → List Provider) (q : String) (p0 : Provider) :
    ∀ kl : List String, q ∉ kl →
      addToGroups (kl.map (fun k => (k, B k))) q p0
        = kl.map (fun k => (k, B k)) ++ [(q, [p0])]
  | [], _ => by simp [addToGroups]
  | k0 :: rest, hq => by
    simp only [List.map_cons, addToGroups]
    have h0 : k0 ≠ q := fun he => hq (he ▸ List.mem_cons_self k0 rest)
    rw [if_neg h0, addToGroups_map_not_mem B q p0 rest (fun hr => hq (List.mem_cons_of_mem _ hr))]
    simp

end ProjectDeck

namespace GroupByAddress

open ProjectDeck

/-- Structure of the bucket map: the buckets of `buildGroups` are exactly
the key-filtered sublists of the input, one per distinct key in
first-occurrence order. -/
theorem buildGroups_eq (flag : Bool) (ps : List Provider) :
    buildGroups ps flag = (firstKeys ps flag).map (fun k => (k, bucketOf ps flag k)) := by
  induction ps using List.reverseRecOn with
  | nil => simp [buildGroups, firstKeys]
  | append_singleton l a ih =>
    rw [buildGroups_snoc, ih, firstKeys_snoc]
    by_cases h : create_location_key a flag ∈ firstKeys l flag
    · rw [if_pos h,
        addToGroups_map_mem (fun k => bucketOf l flag k) _ _ _ (firstKeys_nodup flag l) h]
      refine List.map_congr_left fun k _ => ?_
      rw [bucketOf_snoc]
    · rw [if_neg h,
        addToGroups_map_not_mem (fun k => bucketOf l flag k) _ _ _ h, List.map_append]
      congr 1
      · refine List.map_congr_left fun k hk => ?_
        have hne : create_location_key a flag ≠ k := fun he => h (he ▸ hk)
        rw [bucketOf_snoc, if_neg hne, List.append_nil]
      · have hempty : bucketOf l flag (create_location_key a flag) = [] := by
          rw [bucketOf, List.filter_eq_nil_iff]
          intro p hp hk
          exact h ((mem_firstKeys flag l _).mpr ⟨p, hp, by simpa using hk⟩)
        simp [bucketOf_snoc, hempty]

theorem mem_locations_iff (data : InputData) (flag : Bool) (e : LocationEntry) :
    e ∈ (group_providers_by_address data flag).locations ↔
      ∃ kb ∈ buildGroups (allProviders data) flag, mkLocationEntry kb = e := by
  have h2 := (sortLe_perm
    (fun a b => pyStrLe a.location.full_address b.location.full_address)
    ((sortLe (fun a b : String × List Provider => pyStrLe a.1 b.1)
        (buildGroups (allProviders data) flag)).map mkLocationEntry)).mem_iff (a := e)
  have h1 := (sortLe_perm (fun a b : String × List Provider => pyStrLe a.1 b.1)
    (buildGroups (allProviders data) flag))
  show e ∈ sortLe _ ((sortLe _ (buildGroups (allProviders data) flag)).map mkLocationEntry) ↔ _
  rw [h2, List.mem_map]
  exact exists_congr fun kb => and_congr_left fun _ => h1.mem_iff

end GroupByAddress

namespace Claims

open ProjectDeck GroupByAddress ClaimData

/-- C1, counterexample: `group_providers_by_address` does not exclude
records with a `"null"` address.  On an input consisting solely of one such
record, the output has one location group (not zero), the record is inside
that group, and `total_providers` is 1 (not 0). -/
theorem c1_counterexample :
    (group_providers_by_address c1data false).total_providers = 1 ∧
    (group_providers_by_address c1data false).locations.length = 1 ∧
    (group_providers_by_address c1data false).locations.map
        (fun e => e.providers.map (fun p => p.address)) = [[some "null"]] := by
  decide

/-- C2, counterexample: `total_providers` counts records without a usable
address.  On an input with one `"null"`-address record and one usable
record, `total_providers` is 2 while only 1 input record has a usable
address. -/
theorem c2_counterexample :
    (group_providers_by_address c2data false).total_providers = 2 ∧
    ((allProviders c2data).filter ExtractDentalData.usableAddress).length = 1 := by
  decide

/-- C3, counterexample: a location group with an empty `full_address` exists
in the output when the canonical record has no address, city, state or zip
(such records are not excluded by `group_providers_by_address`). -/
theorem c3_counterexample :
    (group_providers_by_address c3data false).locations.map
        (fun e => e.location.full_address) = [""] ∧
    (group_providers_by_address c3data false).locations.length = 1 := by
  decide

/-- C4, counterexample: the `group_by_address.py` versions of
`normalize_address` and `get_base_address` return the sentinel `"null"`
unchanged rather than the empty string. -/
theorem c4_counterexample :
    GroupByAddress.normalize_address "null" = "null" ∧
    GroupByAddress.get_base_address "null" = "null" ∧
    ("null" : String) ≠ "" := by
  decide

/-- C4, amended: both functions return `""` on empty input in both modules,
and the `extract_dental_data.py` versions also return `""` on the sentinel
`"null"`; the `group_by_address.py` versions return `"null"` unchanged. -/
theorem c4_empty_and_sentinel_behaviour :
    GroupByAddress.normalize_address "" = "" ∧
    GroupByAddress.get_base_address "" = "" ∧
    ExtractDentalData.normalize_address "" = "" ∧
    ExtractDentalData.get_base_address "" = "" ∧
    ExtractDentalData.normalize_address "null" = "" ∧
    ExtractDentalData.get_base_address "null" = "" ∧
    GroupByAddress.normalize_address "null" = "null" ∧
    GroupByAddress.get_base_address "null" = "null" := by
  decide

/-- C5, counterexample: `normalize_address` is not idempotent.  The street
rules consume one trailing dot per pass: `"st.."` normalizes to
`"street."`, which normalizes again to `"street"`. -/
theorem c5_counterexample :
    GroupByAddress.normalize_address "st.." = "street." ∧
    GroupByAddress.normalize_address "street." = "street" ∧
    GroupByAddress.normalize_address (GroupByAddress.normalize_address "st..")
      ≠ GroupByAddress.normalize_address "st.." := by
  decide

/-- C5, amended: `normalize_address` is not idempotent in general, but it is
idempotent on each of the specification's exemplar addresses. -/
theorem c5_idempotent_on_exemplars :
    (GroupByAddress.normalize_address (GroupByAddress.normalize_address "123 MAIN   ST")
       = GroupByAddress.normalize_address "123 MAIN   ST") ∧
    (GroupByAddress.normalize_address (GroupByAddress.normalize_address "123 main st")
       = GroupByAddress.normalize_address "123 main st") ∧
    (GroupByAddress.normalize_address (GroupByAddress.normalize_address "123 Main St")
       = GroupByAddress.normalize_address "123 Main St") ∧
    (GroupByAddress.normalize_address (GroupByAddress.normalize_address "45 Oak Ave")
       = GroupByAddress.normalize_address "45 Oak Ave") ∧
    (GroupByAddress.normalize_address (GroupByAddress.normalize_address "100 Elm Rd Ste 2")
       = GroupByAddress.normalize_address "100 Elm Rd Ste 2") ∧
    (GroupByAddress.normalize_address (GroupByAddress.normalize_address "100 Elm Rd Ste 3")
       = GroupByAddress.normalize_address "100 Elm Rd Ste 3") ∧
    (GroupByAddress.normalize_address (GroupByAddress.normalize_address "123 Main St Ste 2")
       = GroupByAddress.normalize_address "123 Main St Ste 2") := by
  decide

/-- C6, counterexample: the pipe separator also occurs inside components, so
two records with different normalized component tuples can produce the same
location key (address `"a|b"` with city `"c"` collides with address `"a"`
and city `"b|c"`). -/
theorem c6_counterexample :
    keyComponents c6p1 false ≠ keyComponents c6p2 false ∧
    create_location_key c6p1 false = create_location_key c6p2 false := by
  decide

/-- C7 (confirmed): `normalize_address` keeps the suite identifier, so suite
2 and suite 3 of the same building normalize differently, while
`get_base_address` strips the suite suffix, collapsing both to the same
base address. -/
theorem c7_suite_preservation_vs_base_collapse :
    GroupByAddress.normalize_address "100 Elm Rd Ste 2"
      ≠ GroupByAddress.normalize_address "100 Elm Rd Ste 3" ∧
    GroupByAddress.get_base_address "100 Elm Rd Ste 2"
      = GroupByAddress.get_base_address "100 Elm Rd Ste 3" := by
  decide

/-- C10 (confirmed): the base-address pattern matches `ste` inside the word
`"Easter"` (no word boundary is required), truncating `"10 Easter Blvd"` to
`"10 ea"`; hence base-mode grouping assigns the same location key to the
distinct street addresses `"10 Easter Blvd"` and `"10 Eastern Ave"`, while
exact-address mode keeps them apart. -/
theorem c10_base_address_mid_word_match :
    GroupByAddress.get_base_address "10 Easter Blvd" = "10 ea" ∧
    GroupByAddress.get_base_address "10 Easter Blvd" ≠ "10 easter blvd" ∧
    c10p1.address ≠ c10p2.address ∧
    create_location_key c10p1 true = create_location_key c10p2 true ∧
    create_location_key c10p1 false ≠ create_location_key c10p2 false := by
  decide

end Claims

namespace ProjectDeck

/-- Any record found in a bucket after an `addToGroups` step was already in
some bucket, or is the record just added. -/
theorem addToGroups_mem_cases (gs : List (String × List Provider)) (k : String) (p : Provider) :
    ∀ kb ∈ addToGroups gs k p, ∀ x ∈ kb.2, (∃ kb' ∈ gs, x ∈ kb'.2) ∨ x = p := by
  induction gs with
  | nil =>
    intro kb hkb x hx
    simp only [addToGroups, List.mem_singleton] at hkb
    subst hkb
    simp only [List.mem_singleton] at hx
    exact Or.inr hx
  | cons kb0 rest ih =>
    obtain ⟨k', ps⟩ := kb0
    intro kb hkb x hx
    simp only [addToGroups] at hkb
    split at hkb
    · rcases List.mem_cons.mp hkb with h | h
      · subst h
        simp only [List.mem_append, List.mem_singleton] at hx
        rcases hx with hx | hx
        · exact Or.inl ⟨(k', ps), List.mem_cons_self _ _, hx⟩
        · exact Or.inr hx
      · exact Or.inl ⟨kb, List.mem_cons_of_mem _ h, hx⟩
    · rcases List.mem_cons.mp hkb with h | h
      · subst h
        exact Or.inl ⟨(k', ps), List.mem_cons_self _ _, hx⟩
      · rcases ih kb h x hx with ⟨kb', hkb', hx'⟩ | hx'
        · exact Or.inl ⟨kb', List.mem_cons_of_mem _ hkb', hx'⟩
        · exact Or.inr hx'

end ProjectDeck

namespace ExtractDentalData

open ProjectDeck

/-- Invariant of the dental grouping fold: every record in every bucket has
a usable address. -/
theorem groupedD_go_usable :
    ∀ (ps : List Provider) (gs : List (String × List Provider)),
      (∀ kb ∈ gs, ∀ p ∈ kb.2, usableAddress p = true) →
      ∀ kb ∈ ps.foldl
          (fun gs p =>
            if usableAddress p then addToGroups gs (create_location_key p true) p else gs)
          gs,
        ∀ p ∈ kb.2, usableAddress p = true
  | [], gs, h => h
  | q :: qs, gs, h => by
    simp only [List.foldl_cons]
    refine groupedD_go_usable qs _ ?_
    by_cases hu : usableAddress q
    · rw [if_pos hu]
      intro kb hkb x hx
      rcases addToGroups_mem_cases gs _ q kb hkb x hx with ⟨kb', hkb', hx'⟩ | hx'
      · exact h kb' hkb' x hx'
      · exact hx' ▸ hu
    · rwa [if_neg hu]

/-- Every bucket built by the dental pipeline holds only records with a
usable address. -/
theorem groupedD_usable (ps : List Provider) :
    ∀ kb ∈ groupedD ps, ∀ p ∈ kb.2, usableAddress p = true :=
  groupedD_go_usable ps [] (by intro kb hkb; exact absurd hkb (List.not_mem_nil kb))

/-- If no record is usable, the dental fold adds nothing. -/
theorem groupedD_go_unusable :
    ∀ (ps : List Provider) (gs : List (String × List Provider)),
      (∀ p ∈ ps, usableAddress p = false) →
      ps.foldl
          (fun gs p =>
            if usableAddress p then addToGroups gs (create_location_key p true) p else gs)
          gs = gs
  | [], _, _ => rfl
  | q :: qs, gs, h => by
    simp only [List.foldl_cons]
    rw [if_neg (by simp [h q (List.mem_cons_self q qs)])]
    exact groupedD_go_unusable qs gs fun p hp => h p (List.mem_cons_of_mem q hp)

/-- An input consisting solely of unusable records produces no buckets and
hence no dental locations. -/
theorem dentalLocations_all_unusable (ps : List Provider)
    (h : ∀ p ∈ ps, usableAddress p = false) : dentalLocations ps = [] := by
  rw [dentalLocations, groupedD, groupedD_go_unusable ps [] h]
  rfl

end ExtractDentalData

namespace Claims

open ProjectDeck GroupByAddress ClaimData

/-- C1, amended: `group_providers_by_address` excludes no record —
`total_providers` counts every input record whatever its address — while the
module-level pipeline of `extract_dental_data.py` does implement the
exclusion: records whose address is absent, empty, or the literal `"null"`
(note: not merely empty after trimming) appear in no bucket, and an input
consisting solely of such records yields an empty locations list. -/
theorem c1_exclusion_of_unusable :
    (∀ (ps : List Provider) (kb : String × List Provider),
        kb ∈ ExtractDentalData.groupedD ps →
        ∀ p ∈ kb.2, ExtractDentalData.usableAddress p = true) ∧
    (∀ ps : List Provider,
        (∀ p ∈ ps, ExtractDentalData.usableAddress p = false) →
        ExtractDentalData.dentalLocations ps = []) ∧
    (∀ (data : InputData) (flag : Bool),
        (group_providers_by_address data flag).total_providers
          = (allProviders data).length) :=
  ⟨fun ps kb hkb => ExtractDentalData.groupedD_usable ps kb hkb,
   fun ps h => ExtractDentalData.dentalLocations_all_unusable ps h,
   fun _ _ => rfl⟩

/-- C1, witness: instantiation of `c1_exclusion_of_unusable` at concrete
inputs. -/
theorem c1_exclusion_of_unusable_witness :
    ExtractDentalData.usableAddress { address := some "1 Elm St", name := some "Dr. W" } = true ∧
    ExtractDentalData.dentalLocations
        [{ address := some "null" }, { }, { address := some "" }] = [] ∧
    (group_providers_by_address c1data false).total_providers
      = (allProviders c1data).length :=
  ⟨c1_exclusion_of_unusable.1
      [{ address := some "1 Elm St", name := some "Dr. W" }]
      (ExtractDentalData.create_location_key
          { address := some "1 Elm St", name := some "Dr. W" } true,
        [{ address := some "1 Elm St", name := some "Dr. W" }])
      (by decide) _ (by decide),
   c1_exclusion_of_unusable.2.1 [{ address := some "null" }, { }, { address := some "" }]
      (by decide),
   c1_exclusion_of_unusable.2.2 c1data false⟩

/-- C2, amended: for every output of `group_providers_by_address`, each
group's `provider_count` equals the length of its `providers` list and the
counts sum to `total_providers`; but `total_providers` equals the number of
*all* input records, not only those with a usable address. -/
theorem c2_count_invariants (data : InputData) (flag : Bool) :
    (∀ e ∈ (group_providers_by_address data flag).locations,
        e.provider_count = e.providers.length) ∧
    ((group_providers_by_address data flag).locations.map
        (fun e => e.provider_count)).sum
      = (group_providers_by_address data flag).total_providers ∧
    (group_providers_by_address data flag).total_providers
      = (allProviders data).length := by
  refine ⟨?_, ?_, rfl⟩
  · intro e he
    rw [mem_locations_iff] at he
    obtain ⟨kb, _, rfl⟩ := he
    rfl
  · have h1 := sortLe_perm (fun a b : String × List Provider => pyStrLe a.1 b.1)
      (buildGroups (allProviders data) flag)
    have h2 := sortLe_perm
      (fun a b : LocationEntry => pyStrLe a.location.full_address b.location.full_address)
      ((sortLe (fun a b : String × List Provider => pyStrLe a.1 b.1)
          (buildGroups (allProviders data) flag)).map mkLocationEntry)
    show ((sortLe _ ((sortLe (fun a b : String × List Provider => pyStrLe a.1 b.1)
        (buildGroups (allProviders data) flag)).map mkLocationEntry)).map
          (fun e => e.provider_count)).sum = (allProviders data).length
    rw [(h2.map (fun e => e.provider_count)).sum_eq, List.map_map]
    rw [show ((fun e : LocationEntry => e.provider_count) ∘ mkLocationEntry)
        = (fun kb : String × List Provider => kb.2.length) from rfl]
    rw [(h1.map (fun kb : String × List Provider => kb.2.length)).sum_eq]
    exact buildGroups_sum (allProviders data) flag

/-- C2, witness: instantiation of `c2_count_invariants` at a concrete input
with a location entry. -/
theorem c2_count_invariants_witness :
    ((group_providers_by_address c2data false).locations.headD default).provider_count
      = ((group_providers_by_address c2data false).locations.headD default).providers.length ∧
    ((group_providers_by_address c2data false).locations.map
        (fun e => e.provider_count)).sum
      = (group_providers_by_address c2data false).total_providers :=
  ⟨(c2_count_invariants c2data false).1 _ (by decide),
   (c2_count_invariants c2data false).2.1⟩

/-- C3, amended: every produced group's `full_address` is the `", "`-join of
exactly the non-empty fields among address, city, state, zip of the group's
canonical (first) record; the non-emptiness conjunct of the claim fails,
since records without any of those fields still form groups. -/
theorem c3_full_address_join (data : InputData) (flag : Bool) :
    ∀ e ∈ (group_providers_by_address data flag).locations,
      e.providers ≠ [] ∧
      e.location.full_address
        = joinCommaSpace (fullAddressParts (e.providers.headD default)) := by
  intro e he
  rw [mem_locations_iff] at he
  obtain ⟨kb, hkb, rfl⟩ := he
  rw [buildGroups_eq] at hkb
  obtain ⟨k, hk, hkb'⟩ := List.mem_map.mp hkb
  obtain ⟨p0, hp0, hkey⟩ := (mem_firstKeys flag _ k).mp hk
  have hne : bucketOf (allProviders data) flag k ≠ [] := by
    intro hnil
    have hmem : p0 ∈ bucketOf (allProviders data) flag k :=
      List.mem_filter.mpr ⟨hp0, by simpa using hkey⟩
    rw [hnil] at hmem
    exact absurd hmem (List.not_mem_nil p0)
  subst hkb'
  cases hb : bucketOf (allProviders data) flag k with
  | nil => exact absurd hb hne
  | cons p rest =>
    exact ⟨List.cons_ne_nil p rest, rfl⟩

/-- C3, witness: instantiation of `c3_full_address_join` at a concrete
input. -/
theorem c3_full_address_join_witness :
    ((group_providers_by_address c3data false).locations.headD default).providers ≠ [] ∧
    ((group_providers_by_address c3data false).locations.headD default).location.full_address
      = joinCommaSpace (fullAddressParts
          (((group_providers_by_address c3data false).locations.headD
              default).providers.headD default)) :=
  c3_full_address_join c3data false _ (by decide)

end Claims

namespace Claims

open ProjectDeck GroupByAddress ClaimData

/-- C8 (confirmed): for every non-empty bucket (the input records whose
location key is `k`, in input iteration order), the output of
`group_providers_by_address` contains the location entry built from that
bucket: its `providers` list is exactly the bucket, and all location fields
— address, city, state, zip, county, phone, website, distance_miles — are
taken from the bucket's first record. -/
theorem c8_bucket_to_group (data : InputData) (flag : Bool) (k : String)
    (h : bucketOf (allProviders data) flag k ≠ []) :
    mkLocationEntry (k, bucketOf (allProviders data) flag k)
        ∈ (group_providers_by_address data flag).locations ∧
    (mkLocationEntry (k, bucketOf (allProviders data) flag k)).providers
        = bucketOf (allProviders data) flag k ∧
    (mkLocationEntry (k, bucketOf (allProviders data) flag k)).location.address
        = orEmpty ((bucketOf (allProviders data) flag k).headD default).address ∧
    (mkLocationEntry (k, bucketOf (allProviders data) flag k)).location.city
        = orEmpty ((bucketOf (allProviders data) flag k).headD default).city ∧
    (mkLocationEntry (k, bucketOf (allProviders data) flag k)).location.state
        = orEmpty ((bucketOf (allProviders data) flag k).headD default).state ∧
    (mkLocationEntry (k, bucketOf (allProviders data) flag k)).location.zip
        = orEmpty ((bucketOf (allProviders data) flag k).headD default).zip ∧
    (mkLocationEntry (k, bucketOf (allProviders data) flag k)).location.county
        = orEmpty ((bucketOf (allProviders data) flag k).headD default).county ∧
    (mkLocationEntry (k, bucketOf (allProviders data) flag k)).location.phone
        = orEmpty ((bucketOf (allProviders data) flag k).headD default).phone ∧
    (mkLocationEntry (k, bucketOf (allProviders data) flag k)).location.website
        = ((bucketOf (allProviders data) flag k).headD default).website ∧
    (mkLocationEntry (k, bucketOf (allProviders data) flag k)).location.distance_miles
        = ((bucketOf (allProviders data) flag k).headD default).distance_miles := by
  refine ⟨?_, rfl, rfl, rfl, rfl, rfl, rfl, rfl, rfl, rfl⟩
  rw [mem_locations_iff]
  refine ⟨(k, bucketOf (allProviders data) flag k), ?_, rfl⟩
  rw [buildGroups_eq]
  obtain ⟨x, hx⟩ := List.exists_mem_of_ne_nil _ h
  obtain ⟨hxmem, hxkey⟩ := List.mem_filter.mp hx
  have hk : k ∈ firstKeys (allProviders data) flag :=
    (mem_firstKeys flag _ k).mpr ⟨x, hxmem, by simpa using hxkey⟩
  exact List.mem_map_of_mem _ hk

/-- C8, witness: instantiation of `c8_bucket_to_group` at a concrete input
with a two-record bucket. -/
theorem c8_bucket_to_group_witness :
    mkLocationEntry (c8key, bucketOf (allProviders c8data) false c8key)
        ∈ (group_providers_by_address c8data false).locations ∧
    (mkLocationEntry (c8key, bucketOf (allProviders c8data) false c8key)).providers
        = bucketOf (allProviders c8data) false c8key :=
  ⟨(c8_bucket_to_group c8data false c8key (by decide)).1,
   (c8_bucket_to_group c8data false c8key (by decide)).2.1⟩

end Claims

namespace ProjectDeck

/-- Splitting at an unambiguous separator: if the separator occurs in
neither left part, gluing with it is injective. -/
theorem append_pipe_inj (r₁ r₂ : List Char) :
    ∀ a₁ a₂ : List Char, '|' ∉ a₁ → '|' ∉ a₂ →
      a₁ ++ '|' :: r₁ = a₂ ++ '|' :: r₂ → a₁ = a₂ ∧ r₁ = r₂ := by
  intro a₁
  induction a₁ with
  | nil =>
    intro a₂ h1 h2 h
    cases a₂ with
    | nil => simpa using h
    | cons b bs =>
      simp only [List.nil_append, List.cons_append, List.cons.injEq] at h
      exact absurd (List.mem_cons.mpr (Or.inl h.1)) h2
  | cons a as ih =>
    intro a₂ h1 h2 h
    cases a₂ with
    | nil =>
      simp only [List.cons_append, List.nil_append, List.cons.injEq] at h
      exact absurd (List.mem_cons.mpr (Or.inl h.1.symm)) h1
    | cons b bs =>
      simp only [List.cons_append, List.cons.injEq] at h
      obtain ⟨hab, h'⟩ := h
      have h1' : '|' ∉ as := fun hm => h1 (List.mem_cons_of_mem _ hm)
      have h2' : '|' ∉ bs := fun hm => h2 (List.mem_cons_of_mem _ hm)
      obtain ⟨he, hr⟩ := ih bs h1' h2' h'
      exact ⟨by rw [hab, he], hr⟩

/-- Character data of a four-component pipe-separated key. -/
theorem key_data (a c s z : String) :
    (a ++ "|" ++ c ++ "|" ++ s ++ "|" ++ z).data
      = a.data ++ '|' :: (c.data ++ '|' :: (s.data ++ '|' :: z.data)) := by
  simp [String.data_append]

end ProjectDeck

namespace GroupByAddress

open ProjectDeck

/-- If two records yield the same location key and their address, city and
state components are pipe-free, their component tuples agree. -/
theorem key_eq_components (p q : Provider) (m : Bool)
    (hpa : noPipe (keyComponents p m).1) (hqa : noPipe (keyComponents q m).1)
    (hpc : noPipe (keyComponents p m).2.1) (hqc : noPipe (keyComponents q m).2.1)
    (hps : noPipe (keyComponents p m).2.2.1) (hqs : noPipe (keyComponents q m).2.2.1)
    (h : create_location_key p m = create_location_key q m) :
    keyComponents p m = keyComponents q m := by
  have hp : create_location_key p m
      = (keyComponents p m).1 ++ "|" ++ (keyComponents p m).2.1 ++ "|"
          ++ (keyComponents p m).2.2.1 ++ "|" ++ (keyComponents p m).2.2.2 := rfl
  have hq : create_location_key q m
      = (keyComponents q m).1 ++ "|" ++ (keyComponents q m).2.1 ++ "|"
          ++ (keyComponents q m).2.2.1 ++ "|" ++ (keyComponents q m).2.2.2 := rfl
  rw [hp, hq] at h
  have hd := congrArg String.data h
  rw [key_data, key_data] at hd
  obtain ⟨ha, hd2⟩ := append_pipe_inj _ _ _ _ hpa hqa hd
  obtain ⟨hc, hd3⟩ := append_pipe_inj _ _ _ _ hpc hqc hd2
  obtain ⟨hs, hd4⟩ := append_pipe_inj _ _ _ _ hps hqs hd3
  exact Prod.ext (String.ext ha)
    (Prod.ext (String.ext hc) (Prod.ext (String.ext hs) (String.ext hd4)))

end GroupByAddress

namespace Claims

open ProjectDeck GroupByAddress ClaimData

/-- C6, amended: `create_location_key` is a pure function of the four
address fields and the grouping-mode flag, and the pipe separator prevents
cross-field collisions only for records whose normalized address, city and
state components are pipe-free (the code never removes a `'|'` occurring
inside a field, so the unconditional claim fails). -/
theorem c6_key_purity_and_separation :
    (∀ (p q : Provider) (m : Bool),
        p.address = q.address → p.city = q.city → p.state = q.state → p.zip = q.zip →
        create_location_key p m = create_location_key q m) ∧
    (∀ (p q : Provider) (m : Bool),
        noPipe (keyComponents p m).1 → noPipe (keyComponents q m).1 →
        noPipe (keyComponents p m).2.1 → noPipe (keyComponents q m).2.1 →
        noPipe (keyComponents p m).2.2.1 → noPipe (keyComponents q m).2.2.1 →
        keyComponents p m ≠ keyComponents q m →
        create_location_key p m ≠ create_location_key q m) := by
  constructor
  · intro p q m ha hc hs hz
    simp only [create_location_key, ha, hc, hs, hz]
  · intro p q m hpa hqa hpc hqc hps hqs hne h
    exact hne (key_eq_components p q m hpa hqa hpc hqc hps hqs h)

/-- C6, witness: instantiation of `c6_key_purity_and_separation` at concrete
records — equal fields give equal keys, and pipe-free differing component
tuples give different keys. -/
theorem c6_key_purity_and_separation_witness :
    create_location_key c6q1 false
      = create_location_key
          { address := some "1 Elm St", city := some "Goleta", zip := some "93117",
            name := some "other" } false ∧
    create_location_key c6q1 false ≠ create_location_key c6q2 false :=
  ⟨c6_key_purity_and_separation.1 c6q1
      { address := some "1 Elm St", city := some "Goleta", zip := some "93117",
        name := some "other" } false rfl rfl rfl rfl,
   c6_key_purity_and_separation.2 c6q1 c6q2 false (by decide) (by decide) (by decide)
      (by decide) (by decide) (by decide) (by decide)⟩

/-- C9 (confirmed): the CLI selects base-address mode exactly when a third
positional argument is present and its lowercasing is one of `"true"`,
`"1"`, `"yes"`, `"base"`; the process exit status is 0 or 1, status 1 comes
with a diagnostic message and 0 without, a missing file or malformed JSON
or any other load failure exits 1, and a successful load exits 0 exactly
when processing completes (at least one location, since the summary print
divides by `total_locations`). -/
theorem c9_cli_flag_and_exit_codes :
    (∀ argv : List String,
        ((mainArgs argv).2.2 = true ↔
          3 < argv.length ∧
            (argv.getD 3 "").toLower ∈ (["true", "1", "yes", "base"] : List String))) ∧
    (∀ (argv : List String) (load : String → LoadOutcome),
        (mainExit argv load).1 = 0 ∨ (mainExit argv load).1 = 1) ∧
    (∀ (argv : List String) (load : String → LoadOutcome),
        ((mainExit argv load).1 = 1 ↔ (mainExit argv load).2.isSome)) ∧
    (∀ (argv : List String) (load : String → LoadOutcome),
        load (mainArgs argv).1 = .fileNotFound ∨ load (mainArgs argv).1 = .jsonError ∨
          load (mainArgs argv).1 = .otherFailure →
        (mainExit argv load).1 = 1) ∧
    (∀ (argv : List String) (load : String → LoadOutcome) (data : InputData),
        load (mainArgs argv).1 = .ok data →
        ((mainExit argv load).1 = 0 ↔
          (group_providers_by_address data (mainArgs argv).2.2).total_locations ≠ 0)) := by
  refine ⟨?_, ?_, ?_, ?_, ?_⟩
  · intro argv
    by_cases h : 3 < argv.length
    · simp only [mainArgs, if_pos h, truthyFlag, h, true_and]
      simp [List.mem_cons]
      tauto
    · simp [mainArgs, if_neg h, h]
  · intro argv load
    simp only [mainExit]
    cases load (mainArgs argv).1 with
    | ok data => dsimp only; split <;> simp
    | fileNotFound => simp
    | jsonError => simp
    | otherFailure => simp
  · intro argv load
    simp only [mainExit]
    cases load (mainArgs argv).1 with
    | ok data => dsimp only; split <;> simp
    | fileNotFound => simp
    | jsonError => simp
    | otherFailure => simp
  · intro argv load h
    simp only [mainExit]
    rcases h with h | h | h <;> rw [h]
  · intro argv load data h
    simp only [mainExit]
    rw [h]
    dsimp only
    split
    · rename_i hz
      simp [hz]
    · rename_i hz
      simp [hz]

/-- C9, witness: instantiation of `c9_cli_flag_and_exit_codes` at concrete
argument vectors and load outcomes. -/
theorem c9_cli_flag_and_exit_codes_witness :
    (mainExit ["prog", "in.json"] (fun _ => .fileNotFound)).1 = 1 ∧
    ((mainExit ["prog", "in.json", "out.json", "BASE"]
        (fun _ => .ok ClaimData.c9data)).1 = 0 ↔
      (group_providers_by_address ClaimData.c9data
          (mainArgs ["prog", "in.json", "out.json", "BASE"]).2.2).total_locations ≠ 0) ∧
    ((mainArgs ["prog", "in.json", "out.json", "BASE"]).2.2 = true ↔
      3 < (["prog", "in.json", "out.json", "BASE"] : List String).length ∧
        ((["prog", "in.json", "out.json", "BASE"] : List String).getD 3 "").toLower
          ∈ (["true", "1", "yes", "base"] : List String)) :=
  ⟨c9_cli_flag_and_exit_codes.2.2.2.1 ["prog", "in.json"] (fun _ => .fileNotFound)
      (Or.inl rfl),
   c9_cli_flag_and_exit_codes.2.2.2.2 ["prog", "in.json", "out.json", "BASE"]
      (fun _ => .ok ClaimData.c9data) ClaimData.c9data rfl,
   c9_cli_flag_and_exit_codes.1 ["prog", "in.json", "out.json", "BASE"]⟩

end Claims
